import Mathlib

/-!
Verification of the topology-assembly logic of `dd-agent-poc`.

The repository contains two variants of the same CDK stack:
* `src/lib/dd-agent-stack.ts` — plain Fargate task definition with an AWS log
  driver on the application container;
* `src/unnamed/part_001` — the same stack, but the task definition is produced
  by `createDatadogTaskDefinition` (Datadog sidecar with FluentBit logging).

The constructors are shallowly embedded as pure functions from the stack props
to (a) a `Topology` record describing the final state of every construct and
(b) an ordered `Event` trace mirroring the construct/method calls in source
order.  Library behaviour that the source merely configures (the `Vpc`
construct's subnet allocation, the autoscaling controller's clamping, the
workload-spec validation demanded by the spec) is modelled separately, each
with a doc comment saying so.
-/

namespace DdAgentPoc

/-- `DdAgentStackProps` (both variants, lines 23-28): `envName` is required,
`ddSite`, `maxTaskCount` and `targetRequestCountPerTask` are optional. -/
structure DdAgentStackProps where
  envName : String
  ddSite : Option String := none
  maxTaskCount : Option Nat := none
  targetRequestCountPerTask : Option Nat := none
  deriving DecidableEq, Repr

/-- JavaScript `props.ddSite || 'datadoghq.com'` (line 34 of both variants):
`undefined` and the empty string are both falsy, so either falls back to the
default site. -/
def resolveDdSite : Option String → String
  | none => "datadoghq.com"
  | some s => if s = "" then "datadoghq.com" else s

/-- The two subnet tiers used by the stack (`SubnetType.PUBLIC` and
`SubnetType.PRIVATE_WITH_EGRESS`). -/
inductive SubnetKind
  | publicSubnet
  | privateWithEgress
  deriving DecidableEq, Repr

/-- One entry of the `subnetConfiguration` array passed to the `Vpc`
construct. -/
structure SubnetConfigEntry where
  name : String
  subnetType : SubnetKind
  cidrMask : Nat
  deriving DecidableEq, Repr

/-- The properties given to the `Vpc` construct (lines 37-45). -/
structure VpcProps where
  vpcName : String
  maxAzs : Nat
  subnetConfiguration : List SubnetConfigEntry
  natGateways : Nat
  deriving DecidableEq, Repr

/-- The properties given to the `Cluster` construct (lines 48-52). -/
structure ClusterDef where
  clusterName : String
  containerInsightsEnabled : Bool
  deriving DecidableEq, Repr

inductive NetProtocol
  | tcp
  deriving DecidableEq, Repr

structure PortMapping where
  containerPort : Nat
  protocol : NetProtocol
  deriving DecidableEq, Repr

/-- Container image references used by the stack: both variants build the app
image from a `DockerImageAsset` rooted at the repository directory. -/
inductive ImageRef
  | dockerImageAsset (directory : String)
  deriving DecidableEq, Repr

/-- Log drivers attached directly to a container; the plain variant uses
`new AwsLogDriver({ streamPrefix: "demo-app" })` (line 63). -/
inductive LogDriver
  | awsLogs (streamPrefixVal : String)
  deriving DecidableEq, Repr

structure ContainerHealthCheck where
  command : List String
  startPeriodSeconds : Nat
  deriving DecidableEq, Repr

/-- A container added to a task definition via `addContainer` /
`addPortMappings`. -/
structure ContainerDef where
  containerName : String
  image : ImageRef
  healthCheck : ContainerHealthCheck
  logging : Option LogDriver
  portMappings : List PortMapping
  deriving DecidableEq, Repr

/-- The logging types offered by `datadog-cdk-constructs-v2`; the sidecar
variant selects `LoggingType.FLUENTBIT`. -/
inductive LoggingType
  | fluentbit
  deriving DecidableEq, Repr

/-- How the task definition is produced: a plain `FargateTaskDefinition`
(`src/lib` variant, lines 55-57) or the `DatadogECSFargate` factory
(`part_001`, lines 149-171) carrying the site, the API-key secret name, the
FluentBit log configuration, the global tags and the agent health check. -/
inductive TaskDefSource
  | plainFargate
  | datadogSidecar (site : String) (apiKeySecretName : String)
      (loggingType : LoggingType) (fluentbitHostEndpoint : String)
      (globalTags : String) (datadogHealthCheckCommand : List String)
  deriving DecidableEq, Repr

structure TaskDef where
  family : String
  source : TaskDefSource
  containers : List ContainerDef
  deriving DecidableEq, Repr

/-- Sources accepted by `addIngressRule`: `Peer.anyIpv4()`, a literal CIDR
range (`Peer.ipv4(...)`, unused by this stack), or a reference to another
security group. -/
inductive Peer
  | anyIpv4
  | ipv4 (cidr : String)
  | securityGroup (constructId : String)
  deriving DecidableEq, Repr

structure IngressRule where
  source : Peer
  port : Nat
  description : String
  deriving DecidableEq, Repr

structure SecurityGroupDef where
  constructId : String
  allowAllOutbound : Bool
  description : String
  ingress : List IngressRule
  deriving DecidableEq, Repr

/-- The properties given to the `FargateService` construct (lines 77-85). -/
structure FargateServiceDef where
  constructId : String
  desiredCount : Nat
  assignPublicIp : Bool
  securityGroups : List String
  vpcSubnets : SubnetKind
  serviceName : String
  deriving DecidableEq, Repr

structure TgHealthCheck where
  path : String
  intervalSeconds : Nat
  timeoutSeconds : Nat
  healthyThresholdCount : Nat
  unhealthyThresholdCount : Nat
  deriving DecidableEq, Repr

inductive AppProtocol
  | http
  deriving DecidableEq, Repr

inductive TargetType
  | ip
  deriving DecidableEq, Repr

/-- The `ApplicationTargetGroup` (lines 87-99); `members` records the construct
ids attached via `attachToApplicationTargetGroup`. -/
structure TargetGroupDef where
  constructId : String
  protocol : AppProtocol
  port : Nat
  targetType : TargetType
  healthCheck : TgHealthCheck
  members : List String
  deriving DecidableEq, Repr

/-- The `ApplicationLoadBalancer` (lines 107-113). -/
structure AlbDef where
  constructId : String
  internetFacing : Bool
  securityGroup : String
  loadBalancerName : String
  vpcSubnets : SubnetKind
  deriving DecidableEq, Repr

inductive FwdAction
  | forward (targetGroups : List String)
  deriving DecidableEq, Repr

/-- The listener added with `alb.addListener` (lines 115-119). -/
structure ListenerDef where
  port : Nat
  protocol : AppProtocol
  defaultAction : FwdAction
  deriving DecidableEq, Repr

/-- The autoscaling configuration: `autoScaleTaskCount` bounds (lines 125-128)
plus the `scaleOnRequestCount` policy (lines 130-135). -/
structure ScalingDef where
  minCapacity : Nat
  maxCapacity : Nat
  requestsPerTarget : Nat
  targetGroup : String
  scaleInCooldownSeconds : Nat
  scaleOutCooldownSeconds : Nat
  deriving DecidableEq, Repr

/-- The runtime attributes surfaced by the four `CfnOutput`s. -/
inductive OutputRef
  | albDnsName
  | clusterName
  | serviceName
  | vpcId
  deriving DecidableEq, Repr

structure OutputEntry where
  key : String
  value : OutputRef
  deriving DecidableEq, Repr

/-- The final state of every construct created by one stack instantiation. -/
structure Topology where
  vpc : VpcProps
  cluster : ClusterDef
  taskDef : TaskDef
  serviceSg : SecurityGroupDef
  service : FargateServiceDef
  targetGroup : TargetGroupDef
  albSg : SecurityGroupDef
  alb : AlbDef
  listener : ListenerDef
  scaling : ScalingDef
  outputs : List OutputEntry
  deriving DecidableEq, Repr

/-- The workload container spec (spec §3 `WorkloadSpec`): image directory,
container port, health-check command and start period. -/
structure WorkloadSpec where
  imageDirectory : String
  containerPort : Nat
  healthCheckCommand : List String
  startPeriodSeconds : Nat
  deriving DecidableEq, Repr

/-- The workload hard-coded by both variants (lines 60-73 of `src/lib`,
lines 58-69 of `part_001`): the app image built from the repository root,
port 80, a curl health check with a 3s start period. -/
def appWorkloadSpec : WorkloadSpec :=
  { imageDirectory := "__dirname/.."
    containerPort := 80
    healthCheckCommand := ["CMD-SHELL", "curl -f http://localhost/health || exit 1"]
    startPeriodSeconds := 3 }

/-- The `AppContainer` added to the task definition, with the given log driver
(the plain variant passes an `AwsLogDriver`, the sidecar variant passes no
`logging` property). -/
def appContainer (w : WorkloadSpec) (logging : Option LogDriver) : ContainerDef :=
  { containerName := "app"
    image := ImageRef.dockerImageAsset w.imageDirectory
    healthCheck := { command := w.healthCheckCommand, startPeriodSeconds := w.startPeriodSeconds }
    logging := logging
    portMappings := [{ containerPort := w.containerPort, protocol := NetProtocol.tcp }] }

/-- The constructor of the plain variant (`src/lib/dd-agent-stack.ts`,
lines 30-142), with the workload spec — hard-coded in the source — abstracted
as a parameter.  Every field transcribes the corresponding construct property;
`assemble` below instantiates it at the source's concrete workload. -/
def assembleWith (props : DdAgentStackProps) (w : WorkloadSpec) : Topology :=
  { vpc :=
      { vpcName := "dd-agent-vpc-" ++ props.envName
        maxAzs := 2
        subnetConfiguration :=
          [{ name := "public", subnetType := SubnetKind.publicSubnet, cidrMask := 24 },
           { name := "private", subnetType := SubnetKind.privateWithEgress, cidrMask := 24 }]
        natGateways := 1 }
    cluster :=
      { clusterName := "dd-agent-cluster-" ++ props.envName
        containerInsightsEnabled := true }
    taskDef :=
      { family := "dd-agent-poc-task-" ++ props.envName
        source := TaskDefSource.plainFargate
        containers := [appContainer w (some (LogDriver.awsLogs "demo-app"))] }
    serviceSg :=
      { constructId := "ServiceSecurityGroup"
        allowAllOutbound := true
        description := "SG for Fargate service"
        ingress :=
          [{ source := Peer.securityGroup "AlbSecurityGroup", port := 80,
             description := "Allow ALB to app" }] }
    service :=
      { constructId := "Service"
        desiredCount := 1
        assignPublicIp := false
        securityGroups := ["ServiceSecurityGroup"]
        vpcSubnets := SubnetKind.privateWithEgress
        serviceName := "dd-agent-service-" ++ props.envName }
    targetGroup :=
      { constructId := "AlbTargetGroup"
        protocol := AppProtocol.http
        port := 80
        targetType := TargetType.ip
        healthCheck :=
          { path := "/health", intervalSeconds := 30, timeoutSeconds := 5,
            healthyThresholdCount := 2, unhealthyThresholdCount := 2 }
        members := ["Service"] }
    albSg :=
      { constructId := "AlbSecurityGroup"
        allowAllOutbound := true
        description := "SG for ALB"
        ingress :=
          [{ source := Peer.anyIpv4, port := 80, description := "Allow HTTP from internet" }] }
    alb :=
      { constructId := "Alb"
        internetFacing := true
        securityGroup := "AlbSecurityGroup"
        loadBalancerName := "dd-agent-alb-" ++ props.envName
        vpcSubnets := SubnetKind.publicSubnet }
    listener :=
      { port := 80
        protocol := AppProtocol.http
        defaultAction := FwdAction.forward ["AlbTargetGroup"] }
    scaling :=
      { minCapacity := 1
        maxCapacity := props.maxTaskCount.getD 10
        requestsPerTarget := props.targetRequestCountPerTask.getD 1000
        targetGroup := "AlbTargetGroup"
        scaleInCooldownSeconds := 60
        scaleOutCooldownSeconds := 60 }
    outputs :=
      [{ key := "AlbDnsName", value := OutputRef.albDnsName },
       { key := "ClusterName", value := OutputRef.clusterName },
       { key := "ServiceName", value := OutputRef.serviceName },
       { key := "VpcId", value := OutputRef.vpcId }] }

/-- The plain-variant stack exactly as written, with its hard-coded workload. -/
def assemble (props : DdAgentStackProps) : Topology :=
  assembleWith props appWorkloadSpec

/-- `createDatadogTaskDefinition` (`part_001`, lines 149-171): the Datadog
task-definition factory, before any application container is added. -/
def createDatadogTaskDefinition (ddSite envName : String) : TaskDef :=
  { family := "dd-agent-poc-task-" ++ envName
    source :=
      TaskDefSource.datadogSidecar ddSite "datadog/api-key" LoggingType.fluentbit
        ("http-intake.logs." ++ ddSite)
        ("env:" ++ envName ++ " service:dd-agent-poc version:0.1")
        ["CMD-SHELL", "agent health"]
    containers := [] }

/-- The constructor of the sidecar variant (`src/unnamed/part_001`,
lines 30-138), transcribed independently of `assembleWith`: the task
definition comes from `createDatadogTaskDefinition` and the app container is
added without a `logging` property; every other construct is written exactly
as in the source. -/
def assembleSidecar (props : DdAgentStackProps) : Topology :=
  { vpc :=
      { vpcName := "dd-agent-vpc-" ++ props.envName
        maxAzs := 2
        subnetConfiguration :=
          [{ name := "public", subnetType := SubnetKind.publicSubnet, cidrMask := 24 },
           { name := "private", subnetType := SubnetKind.privateWithEgress, cidrMask := 24 }]
        natGateways := 1 }
    cluster :=
      { clusterName := "dd-agent-cluster-" ++ props.envName
        containerInsightsEnabled := true }
    taskDef :=
      { createDatadogTaskDefinition (resolveDdSite props.ddSite) props.envName with
        containers := [appContainer appWorkloadSpec none] }
    serviceSg :=
      { constructId := "ServiceSecurityGroup"
        allowAllOutbound := true
        description := "SG for Fargate service"
        ingress :=
          [{ source := Peer.securityGroup "AlbSecurityGroup", port := 80,
             description := "Allow ALB to app" }] }
    service :=
      { constructId := "Service"
        desiredCount := 1
        assignPublicIp := false
        securityGroups := ["ServiceSecurityGroup"]
        vpcSubnets := SubnetKind.privateWithEgress
        serviceName := "dd-agent-service-" ++ props.envName }
    targetGroup :=
      { constructId := "AlbTargetGroup"
        protocol := AppProtocol.http
        port := 80
        targetType := TargetType.ip
        healthCheck :=
          { path := "/health", intervalSeconds := 30, timeoutSeconds := 5,
            healthyThresholdCount := 2, unhealthyThresholdCount := 2 }
        members := ["Service"] }
    albSg :=
      { constructId := "AlbSecurityGroup"
        allowAllOutbound := true
        description := "SG for ALB"
        ingress :=
          [{ source := Peer.anyIpv4, port := 80, description := "Allow HTTP from internet" }] }
    alb :=
      { constructId := "Alb"
        internetFacing := true
        securityGroup := "AlbSecurityGroup"
        loadBalancerName := "dd-agent-alb-" ++ props.envName
        vpcSubnets := SubnetKind.publicSubnet }
    listener :=
      { port := 80
        protocol := AppProtocol.http
        defaultAction := FwdAction.forward ["AlbTargetGroup"] }
    scaling :=
      { minCapacity := 1
        maxCapacity := props.maxTaskCount.getD 10
        requestsPerTarget := props.targetRequestCountPerTask.getD 1000
        targetGroup := "AlbTargetGroup"
        scaleInCooldownSeconds := 60
        scaleOutCooldownSeconds := 60 }
    outputs :=
      [{ key := "AlbDnsName", value := OutputRef.albDnsName },
       { key := "ClusterName", value := OutputRef.clusterName },
       { key := "ServiceName", value := OutputRef.serviceName },
       { key := "VpcId", value := OutputRef.vpcId }] }

/-- One construct-creation or method call of the stack constructor, in source
order. -/
inductive Event
  | createVpc (props : VpcProps)
  | createCluster (c : ClusterDef)
  | createTaskDef (family : String) (source : TaskDefSource)
  | createImageAsset (directory : String)
  | addContainer (taskFamily : String) (c : ContainerDef)
  | addPortMappings (containerName : String) (m : PortMapping)
  | createSecurityGroup (constructId : String) (allowAllOutbound : Bool) (description : String)
  | addIngressRule (groupId : String) (source : Peer) (port : Nat) (description : String)
  | createService (s : FargateServiceDef)
  | createTargetGroup (tg : TargetGroupDef)
  | attachToApplicationTargetGroup (serviceId : String) (tgId : String)
  | createLoadBalancer (a : AlbDef)
  | addListener (constructId : String) (l : ListenerDef)
  | autoScaleTaskCount (minCapacity maxCapacity : Nat)
  | scaleOnRequestCount (constructId : String) (requestsPerTarget : Nat) (tgId : String)
      (scaleInCooldownSeconds scaleOutCooldownSeconds : Nat)
  | cfnOutput (key : String) (value : OutputRef)
  deriving DecidableEq, Repr

/-- The calls of the plain-variant constructor in the order they appear in
`src/lib/dd-agent-stack.ts` (workload abstracted as in `assembleWith`): VPC
(line 37), cluster (48), task definition (55), image asset (60), app container
(64) and its port mapping (73), service security group (76), service (77),
target group (87) and attachment (100), ALB security group (103), the ALB
ingress rule (104), the service ingress rule (105), load balancer (107),
listener (115), scaling bounds (125), scaling policy (130), outputs
(138-141). -/
def assembleTraceWith (props : DdAgentStackProps) (w : WorkloadSpec) : List Event :=
  let t := assembleWith props w
  [Event.createVpc t.vpc,
   Event.createCluster t.cluster,
   Event.createTaskDef t.taskDef.family t.taskDef.source,
   Event.createImageAsset w.imageDirectory,
   Event.addContainer t.taskDef.family
     { appContainer w (some (LogDriver.awsLogs "demo-app")) with portMappings := [] },
   Event.addPortMappings "app" { containerPort := w.containerPort, protocol := NetProtocol.tcp },
   Event.createSecurityGroup "ServiceSecurityGroup" true "SG for Fargate service",
   Event.createService t.service,
   Event.createTargetGroup { t.targetGroup with members := [] },
   Event.attachToApplicationTargetGroup "Service" "AlbTargetGroup",
   Event.createSecurityGroup "AlbSecurityGroup" true "SG for ALB",
   Event.addIngressRule "AlbSecurityGroup" Peer.anyIpv4 80 "Allow HTTP from internet",
   Event.addIngressRule "ServiceSecurityGroup" (Peer.securityGroup "AlbSecurityGroup") 80
     "Allow ALB to app",
   Event.createLoadBalancer t.alb,
   Event.addListener "HttpListener" t.listener,
   Event.autoScaleTaskCount 1 (props.maxTaskCount.getD 10),
   Event.scaleOnRequestCount "AlbRequestCountScaling" (props.targetRequestCountPerTask.getD 1000)
     "AlbTargetGroup" 60 60,
   Event.cfnOutput "AlbDnsName" OutputRef.albDnsName,
   Event.cfnOutput "ClusterName" OutputRef.clusterName,
   Event.cfnOutput "ServiceName" OutputRef.serviceName,
   Event.cfnOutput "VpcId" OutputRef.vpcId]

/-- The plain-variant trace with the source's hard-coded workload. -/
def assembleTrace (props : DdAgentStackProps) : List Event :=
  assembleTraceWith props appWorkloadSpec

/-- Whether an event belongs to the security boundary: a security-group
creation or an ingress-rule addition. -/
def Event.isSecurityBoundaryEvent : Event → Bool
  | Event.createSecurityGroup _ _ _ => true
  | Event.addIngressRule _ _ _ _ => true
  | _ => false

def Event.isCreateTargetGroup : Event → Bool
  | Event.createTargetGroup _ => true
  | _ => false

def Event.isAddListener : Event → Bool
  | Event.addListener _ _ => true
  | _ => false

def Event.isCreateLoadBalancer : Event → Bool
  | Event.createLoadBalancer _ => true
  | _ => false

/-- One allocated subnet: its availability-zone index, tier, and the index of
its /24 block inside 10.0.0.0/16. -/
structure Subnet where
  az : Nat
  kind : SubnetKind
  blockIndex : Nat
  cidrMask : Nat
  deriving DecidableEq, Repr

/-- Modelled from the spec: §4.2's allocation algorithm, which is what the
`Vpc` construct (aws-cdk-lib, not part of this repository) performs for the
configuration at lines 37-45 — the 10.0.0.0/16 block is partitioned into
consecutive non-overlapping /24 blocks, one subnet per (tier, zone), tiers in
configuration order and zones in order within each tier. -/
def allocateSubnets (maxAzs : Nat) (cfg : List SubnetConfigEntry) : List Subnet :=
  (cfg.enum.map fun ic =>
    (List.range maxAzs).map fun az =>
      { az := az, kind := ic.2.subnetType, blockIndex := ic.1 * maxAzs + az,
        cidrMask := ic.2.cidrMask }).flatten

/-- First address offset of a /24 block inside the /16. -/
def Subnet.addrLo (s : Subnet) : Nat := 256 * s.blockIndex

/-- One past the last address offset of a /24 block inside the /16. -/
def Subnet.addrHi (s : Subnet) : Nat := 256 * s.blockIndex + 256

/-- Two subnets have non-overlapping CIDR ranges. -/
def cidrDisjoint (s t : Subnet) : Prop := s.addrHi ≤ t.addrLo ∨ t.addrHi ≤ s.addrLo

instance (s t : Subnet) : Decidable (cidrDisjoint s t) := by
  unfold cidrDisjoint
  exact inferInstance

/-- The subnets the `Vpc` construct allocates for the stack's configuration. -/
def allocatedSubnets (props : DdAgentStackProps) : List Subnet :=
  allocateSubnets (assemble props).vpc.maxAzs (assemble props).vpc.subnetConfiguration

/-- The error kinds named by the spec (§7). -/
inductive AssemblyError
  | capacityExceeded
  | invalidWorkloadSpec
  | invalidScalingBounds
  deriving DecidableEq, Repr

/-- Modelled from the spec: §4.4/§7 — the Compute Service Builder's input
validation ("if WorkloadSpec is absent or its containerPort is zero, fail with
InvalidWorkloadSpec before attempting creation").  No such check exists under
`src/`: the stack hard-codes its workload with container port 80, so the
validation the spec demands is modelled here from the spec's words. -/
def validateWorkloadSpec : Option WorkloadSpec → Except AssemblyError WorkloadSpec
  | none => Except.error AssemblyError.invalidWorkloadSpec
  | some w =>
    if w.containerPort = 0 then Except.error AssemblyError.invalidWorkloadSpec else Except.ok w

/-- Modelled from the spec: an assembly run that validates the externally
supplied workload spec before creating anything; the first component is the
emitted event trace, empty when validation fails, so a failed run has no
partial side effects. -/
def assembleChecked (props : DdAgentStackProps) (w? : Option WorkloadSpec) :
    List Event × Except AssemblyError Topology :=
  match validateWorkloadSpec w? with
  | Except.error e => ([], Except.error e)
  | Except.ok w => (assembleTraceWith props w, Except.ok (assembleWith props w))

/-- Modelled from the spec: §4.6's target-tracking controller semantics (the
controller runs inside the provisioning engine, not in this repository) — the
desired instance count is the observed request volume divided by the
per-instance target, rounded up, clamped to the policy's [min, max] bounds. -/
def ScalingDef.desiredFor (s : ScalingDef) (observedRequests : Nat) : Nat :=
  min s.maxCapacity (max s.minCapacity
    ((observedRequests + s.requestsPerTarget - 1) / s.requestsPerTarget))

/-- The five environment-scoped resource names one assembly derives. -/
def derivedNames (props : DdAgentStackProps) : List String :=
  [(assemble props).vpc.vpcName,
   (assemble props).cluster.clusterName,
   (assemble props).taskDef.family,
   (assemble props).service.serviceName,
   (assemble props).alb.loadBalancerName]

/-- The props used by the repository's own test (`test/dd-agent-poc.test.ts`):
`envName` "dev", everything else defaulted. -/
def devProps : DdAgentStackProps := { envName := "dev" }

/-- The security-boundary construction order asserted by spec §4.3: edge group
created first, then its internet ingress rule, then the service group, then
the service ingress rule. -/
def specSecurityBoundaryOrder (tr : List Event) : Prop :=
  tr.filter Event.isSecurityBoundaryEvent =
    [Event.createSecurityGroup "AlbSecurityGroup" true "SG for ALB",
     Event.addIngressRule "AlbSecurityGroup" Peer.anyIpv4 80 "Allow HTTP from internet",
     Event.createSecurityGroup "ServiceSecurityGroup" true "SG for Fargate service",
     Event.addIngressRule "ServiceSecurityGroup" (Peer.securityGroup "AlbSecurityGroup") 80
       "Allow ALB to app"]

instance (tr : List Event) : Decidable (specSecurityBoundaryOrder tr) := by
  unfold specSecurityBoundaryOrder
  exact inferInstance

/-- The four /24 subnets the configuration at lines 37-45 yields: one public
and one private-with-egress subnet in each of the two zones, occupying the
first four /24 blocks of 10.0.0.0/16. -/
def expectedSubnets : List Subnet :=
  [{ az := 0, kind := SubnetKind.publicSubnet, blockIndex := 0, cidrMask := 24 },
   { az := 1, kind := SubnetKind.publicSubnet, blockIndex := 1, cidrMask := 24 },
   { az := 0, kind := SubnetKind.privateWithEgress, blockIndex := 2, cidrMask := 24 },
   { az := 1, kind := SubnetKind.privateWithEgress, blockIndex := 3, cidrMask := 24 }]

/-- Appending the same suffix to strings of different lengths yields different
strings. -/
theorem append_right_ne_of_length_ne {a b : String} (e : String)
    (h : a.data.length ≠ b.data.length) : a ++ e ≠ b ++ e := by
  intro hc
  have hd : a.data ++ e.data = b.data ++ e.data := by
    have h2 := congrArg String.data hc
    simpa [String.data_append] using h2
  have hl := congrArg List.length hd
  simp only [List.length_append] at hl
  exact h (Nat.add_right_cancel hl)

/-- Appending the same suffix to different strings of the same length yields
different strings. -/
theorem append_right_ne_of_ne {a b : String} (e : String)
    (hl : a.data.length = b.data.length) (h : a ≠ b) : a ++ e ≠ b ++ e := by
  intro hc
  have hd : a.data ++ e.data = b.data ++ e.data := by
    have h2 := congrArg String.data hc
    simpa [String.data_append] using h2
  exact h (String.ext (List.append_inj hd hl).1)

/-- C1: in every assembled topology the service-facing security group has
exactly one inbound rule, whose source is the edge (ALB) security group — a
group-to-group reference, not an IP range and not the open internet — on the
published port 80; the edge group accepts inbound only from any IPv4 address
on port 80; both groups allow all outbound. -/
theorem security_boundary_c1 (props : DdAgentStackProps) :
    (assemble props).serviceSg.ingress =
      [{ source := Peer.securityGroup (assemble props).albSg.constructId, port := 80,
         description := "Allow ALB to app" }]
    ∧ (assemble props).albSg.ingress =
      [{ source := Peer.anyIpv4, port := 80, description := "Allow HTTP from internet" }]
    ∧ (assemble props).serviceSg.allowAllOutbound = true
    ∧ (assemble props).albSg.allowAllOutbound = true
    ∧ ∀ r ∈ (assemble props).serviceSg.ingress,
        r.source ≠ Peer.anyIpv4 ∧ ∀ c, r.source ≠ Peer.ipv4 c := by
  refine ⟨rfl, rfl, rfl, rfl, ?_⟩
  intro r hr
  rcases List.mem_singleton.mp hr with rfl
  exact ⟨by simp, fun c => by simp⟩

/-- C2: for every environment name the five derived resource names (VPC,
cluster, task family, service, load balancer) have the form
`<kind-specific prefix>-<envName>` and are pairwise distinct; with environment
name "dev" the cluster name ends in "-cluster-dev" and the service name ends
in "-service-dev". -/
theorem naming_c2 (env : String) :
    (assemble { envName := env }).vpc.vpcName = "dd-agent-vpc-" ++ env
    ∧ (assemble { envName := env }).cluster.clusterName = "dd-agent-cluster-" ++ env
    ∧ (assemble { envName := env }).taskDef.family = "dd-agent-poc-task-" ++ env
    ∧ (assemble { envName := env }).service.serviceName = "dd-agent-service-" ++ env
    ∧ (assemble { envName := env }).alb.loadBalancerName = "dd-agent-alb-" ++ env
    ∧ ("dd-agent-vpc-" ++ env ≠ "dd-agent-cluster-" ++ env
       ∧ "dd-agent-vpc-" ++ env ≠ "dd-agent-poc-task-" ++ env
       ∧ "dd-agent-vpc-" ++ env ≠ "dd-agent-service-" ++ env
       ∧ "dd-agent-vpc-" ++ env ≠ "dd-agent-alb-" ++ env
       ∧ "dd-agent-cluster-" ++ env ≠ "dd-agent-poc-task-" ++ env
       ∧ "dd-agent-cluster-" ++ env ≠ "dd-agent-service-" ++ env
       ∧ "dd-agent-cluster-" ++ env ≠ "dd-agent-alb-" ++ env
       ∧ "dd-agent-poc-task-" ++ env ≠ "dd-agent-service-" ++ env
       ∧ "dd-agent-poc-task-" ++ env ≠ "dd-agent-alb-" ++ env
       ∧ "dd-agent-service-" ++ env ≠ "dd-agent-alb-" ++ env)
    ∧ (∃ s, (assemble { envName := "dev" }).cluster.clusterName = s ++ "-cluster-dev")
    ∧ (∃ s, (assemble { envName := "dev" }).service.serviceName = s ++ "-service-dev") := by
  refine ⟨rfl, rfl, rfl, rfl, rfl,
    ⟨append_right_ne_of_length_ne env (by decide),
     append_right_ne_of_length_ne env (by decide),
     append_right_ne_of_length_ne env (by decide),
     append_right_ne_of_ne env (by decide) (by decide),
     append_right_ne_of_length_ne env (by decide),
     append_right_ne_of_ne env (by decide) (by decide),
     append_right_ne_of_length_ne env (by decide),
     append_right_ne_of_length_ne env (by decide),
     append_right_ne_of_length_ne env (by decide),
     append_right_ne_of_length_ne env (by decide)⟩,
    ⟨"dd-agent", by decide⟩, ⟨"dd-agent", by decide⟩⟩

/-- C3: with the stack's availability-zone count of 2, every assembly carves
exactly 4 subnets out of 10.0.0.0/16 — one public and one private-with-egress
/24 subnet per zone, with pairwise non-overlapping CIDR blocks — and requests
exactly 1 shared NAT egress point. -/
theorem network_c3 (props : DdAgentStackProps) :
    (assemble props).vpc.maxAzs = 2
    ∧ (assemble props).vpc.natGateways = 1
    ∧ allocatedSubnets props = expectedSubnets
    ∧ (allocatedSubnets props).length = 4
    ∧ (∀ s ∈ expectedSubnets, ∀ t ∈ expectedSubnets, s ≠ t → cidrDisjoint s t) :=
  ⟨rfl, rfl, rfl, rfl, by decide⟩

/-- C4: the scaling policy's bounds are minimum 1 and maximum `maxTaskCount`
(defaulting to 10), the per-instance request target defaults to 1000, both
scale-in and scale-out cooldowns are 60 seconds, and the modelled controller
keeps the desired count inside [min, max] for every observed request volume —
with `maxTaskCount = 1` it never requests more than 1 instance. -/
theorem scaling_c4 (props : DdAgentStackProps) (observed : Nat)
    (hmax : 1 ≤ (assemble props).scaling.maxCapacity) :
    (assemble props).scaling.minCapacity = 1
    ∧ (assemble props).scaling.maxCapacity = props.maxTaskCount.getD 10
    ∧ (assemble props).scaling.requestsPerTarget = props.targetRequestCountPerTask.getD 1000
    ∧ (assemble props).scaling.scaleInCooldownSeconds = 60
    ∧ (assemble props).scaling.scaleOutCooldownSeconds = 60
    ∧ (assemble props).scaling.minCapacity ≤ (assemble props).scaling.desiredFor observed
    ∧ (assemble props).scaling.desiredFor observed ≤ (assemble props).scaling.maxCapacity := by
  refine ⟨rfl, rfl, rfl, rfl, rfl, ?_, Nat.min_le_left _ _⟩
  exact Nat.le_min.mpr ⟨hmax, Nat.le_max_left _ _⟩

/-- Witness for C4: `maxTaskCount = 1` with a million observed requests still
yields a desired count of at most 1. -/
theorem scaling_c4_witness :
    1 ≤ (assemble { envName := "dev", maxTaskCount := some 1 }).scaling.maxCapacity
    ∧ (assemble { envName := "dev", maxTaskCount := some 1 }).scaling.desiredFor 1000000 ≤
        (assemble { envName := "dev", maxTaskCount := some 1 }).scaling.maxCapacity :=
  ⟨by decide,
   (scaling_c4 { envName := "dev", maxTaskCount := some 1 } 1000000 (by decide)).2.2.2.2.2.2⟩

/-- C5: if the workload spec is absent or its container port is zero, the
checked assembly fails with `InvalidWorkloadSpec` and emits no events — no
network or security resource is created. -/
theorem invalid_workload_c5 (props : DdAgentStackProps) (w? : Option WorkloadSpec)
    (h : w? = none ∨ ∃ w, w? = some w ∧ w.containerPort = 0) :
    assembleChecked props w? = ([], Except.error AssemblyError.invalidWorkloadSpec) := by
  rcases h with h | ⟨w, hw, hp⟩
  · subst h
    rfl
  · subst hw
    simp [assembleChecked, validateWorkloadSpec, hp]

/-- Witness for C5: an absent workload spec on the "dev" props. -/
theorem invalid_workload_c5_witness :
    (({ envName := "dev" } : DdAgentStackProps), (none : Option WorkloadSpec)).2 = none
    ∧ assembleChecked { envName := "dev" } none =
        ([], Except.error AssemblyError.invalidWorkloadSpec) :=
  ⟨rfl, invalid_workload_c5 { envName := "dev" } none (Or.inl rfl)⟩

/-- C6 counterexample: on the "dev" assembly the order asserted by the claim
(edge group created first, then its internet rule, then the service group,
then its rule) does not hold. -/
theorem boundary_order_c6_counterexample :
    ¬ specSecurityBoundaryOrder (assembleTrace devProps) := by decide

/-- C6 (amended): in every assembly the security boundary is built in the
order: (a) create the service group allowing all outbound, (b) create the edge
group allowing all outbound, (c) add the edge group's inbound internet rule on
port 80, (d) add the service group's inbound rule sourced from the edge group.
The service group's inbound rule is still never added before the edge group
exists, and these four are the only security-boundary events. -/
theorem boundary_order_c6 (props : DdAgentStackProps) :
    (assembleTrace props).filter Event.isSecurityBoundaryEvent =
      [Event.createSecurityGroup "ServiceSecurityGroup" true "SG for Fargate service",
       Event.createSecurityGroup "AlbSecurityGroup" true "SG for ALB",
       Event.addIngressRule "AlbSecurityGroup" Peer.anyIpv4 80 "Allow HTTP from internet",
       Event.addIngressRule "ServiceSecurityGroup" (Peer.securityGroup "AlbSecurityGroup") 80
         "Allow ALB to app"] := rfl

/-- C7: every assembly creates exactly one target group — health-check path
/health, interval 30s, timeout 5s, thresholds 2/2 — with the compute service
attached as its sole member, and exactly one listener on the single
internet-facing load balancer (placed in the public subnets with the edge
security group) whose default action forwards port-80 traffic to that target
group. -/
theorem load_balancing_c7 (props : DdAgentStackProps) :
    ((assembleTrace props).filter Event.isCreateTargetGroup).length = 1
    ∧ ((assembleTrace props).filter Event.isAddListener).length = 1
    ∧ ((assembleTrace props).filter Event.isCreateLoadBalancer).length = 1
    ∧ (assemble props).targetGroup.healthCheck =
        { path := "/health", intervalSeconds := 30, timeoutSeconds := 5,
          healthyThresholdCount := 2, unhealthyThresholdCount := 2 }
    ∧ (assemble props).targetGroup.members = [(assemble props).service.constructId]
    ∧ (assemble props).targetGroup.port = 80
    ∧ (assemble props).listener =
        { port := 80, protocol := AppProtocol.http,
          defaultAction := FwdAction.forward [(assemble props).targetGroup.constructId] }
    ∧ (assemble props).alb.internetFacing = true
    ∧ (assemble props).alb.securityGroup = (assemble props).albSg.constructId
    ∧ (assemble props).alb.vpcSubnets = SubnetKind.publicSubnet :=
  ⟨rfl, rfl, rfl, rfl, rfl, rfl, rfl, rfl, rfl, rfl⟩

/-- C8: assembly is a deterministic function of its configuration — two runs
whose props agree on the fields the constructor reads produce identical
derived names, an identical topology and an identical trace. -/
theorem deterministic_c8 (p q : DdAgentStackProps) (h1 : p.envName = q.envName)
    (h2 : p.maxTaskCount = q.maxTaskCount)
    (h3 : p.targetRequestCountPerTask = q.targetRequestCountPerTask) :
    derivedNames p = derivedNames q
    ∧ assemble p = assemble q
    ∧ assembleTrace p = assembleTrace q := by
  cases p with
  | mk e1 d1 m1 t1 =>
    cases q with
    | mk e2 d2 m2 t2 =>
      obtain rfl : e1 = e2 := h1
      obtain rfl : m1 = m2 := h2
      obtain rfl : t1 = t2 := h3
      exact ⟨rfl, rfl, rfl⟩

/-- Witness for C8: two concrete prop records that differ only in `ddSite`
yield identical names, topology and trace. -/
theorem deterministic_c8_witness :
    derivedNames { envName := "dev", ddSite := some "datadoghq.eu" } = derivedNames devProps
    ∧ assemble { envName := "dev", ddSite := some "datadoghq.eu" } = assemble devProps
    ∧ assembleTrace { envName := "dev", ddSite := some "datadoghq.eu" } =
        assembleTrace devProps :=
  deterministic_c8 { envName := "dev", ddSite := some "datadoghq.eu" } devProps rfl rfl rfl

/-- C9: in the plain variant the `ddSite` prop has no effect — replacing it by
any other value leaves the whole topology (all four outputs included) and the
whole trace unchanged. -/
theorem ddsite_unused_c9 (props : DdAgentStackProps) (s : Option String) :
    assemble { props with ddSite := s } = assemble props
    ∧ assembleTrace { props with ddSite := s } = assembleTrace props :=
  ⟨rfl, rfl⟩

/-- C10: for identical props the two stack variants build the same network,
cluster, security groups and rules, service placement, target group, listener,
load balancer, scaling policy and outputs; they differ only in the task
definition — plain Fargate with an AWS log driver on the app container versus
the Datadog-sidecar factory with FluentBit logging and no per-container log
driver. -/
theorem variants_agree_c10 (props : DdAgentStackProps) :
    (assembleSidecar props).vpc = (assemble props).vpc
    ∧ (assembleSidecar props).cluster = (assemble props).cluster
    ∧ (assembleSidecar props).serviceSg = (assemble props).serviceSg
    ∧ (assembleSidecar props).service = (assemble props).service
    ∧ (assembleSidecar props).targetGroup = (assemble props).targetGroup
    ∧ (assembleSidecar props).albSg = (assemble props).albSg
    ∧ (assembleSidecar props).alb = (assemble props).alb
    ∧ (assembleSidecar props).listener = (assemble props).listener
    ∧ (assembleSidecar props).scaling = (assemble props).scaling
    ∧ (assembleSidecar props).outputs = (assemble props).outputs
    ∧ (assemble props).taskDef.family = (assembleSidecar props).taskDef.family
    ∧ (assemble props).taskDef.source = TaskDefSource.plainFargate
    ∧ (assemble props).taskDef.containers =
        [appContainer appWorkloadSpec (some (LogDriver.awsLogs "demo-app"))]
    ∧ (assembleSidecar props).taskDef.source =
        TaskDefSource.datadogSidecar (resolveDdSite props.ddSite) "datadog/api-key"
          LoggingType.fluentbit ("http-intake.logs." ++ resolveDdSite props.ddSite)
          ("env:" ++ props.envName ++ " service:dd-agent-poc version:0.1")
          ["CMD-SHELL", "agent health"]
    ∧ (assembleSidecar props).taskDef.containers = [appContainer appWorkloadSpec none] :=
  ⟨rfl, rfl, rfl, rfl, rfl, rfl, rfl, rfl, rfl, rfl, rfl, rfl, rfl, rfl, rfl⟩

end DdAgentPoc
